import Mathlib

/-!
Verification of the GAIL reward provider
(`mlagents/trainers/torch/components/reward_providers/gail_reward_provider.py`).

Tensors are modelled as lists of real numbers, one row per experience.
External collaborators — the observation encoder (`NetworkBody`), the action
flattener, the linear/Swish/sigmoid layers, reverse-mode autodiff
(`torch.autograd.grad`) and the Adam optimizer — are modelled as opaque
function-valued state, matching the spec's "out of scope" list.
Randomness (`torch.rand`, `torch.normal`) is modelled by explicit noise
sources of type `ℕ → ℕ → ℝ`, indexed by row and column:
`torch.normal(mu, sigma)` is reparametrised as `mu + sigma * noise`, which is
exact in the degenerate case `sigma = 0` used for inference.
-/

noncomputable section

/-- A mini-batch (`AgentBuffer`): the per-experience observation record (the
`vector_obs` and `visual_obs%d` columns, consumed opaquely by the external
state encoder, lines 137-149), the `actions` column and the `done` column. -/
structure Batch where
  obs : List (List ℝ)
  actions : List (List ℝ)
  done : List ℝ

/-- `AgentBuffer.num_experiences`: the common length of the columns. -/
def Batch.numExperiences (b : Batch) : ℕ := b.obs.length

/-- The tensors of the discriminator together with the external function
collaborators it closes over.  `stateEncoder` is `get_state_encoding`'s
`NetworkBody` applied to one experience; `actionFlattener` is
`ModelUtils.ActionFlattener.forward` on one action row; `encoder` is the
two-layer Swish MLP (lines 101-106); `zMuLayer` the latent projection
(lines 114-119); `estimator` the single-unit sigmoid head (lines 124-126);
`gpGradient` is the external reverse-mode autodiff of lines 243-250: the
gradient of the batch-summed estimate with respect to the interpolated
encoder input (`torch.autograd.grad`). -/
structure Weights where
  stateEncoder : List ℝ → List ℝ
  actionFlattener : List ℝ → List ℝ
  encoder : List ℝ → List ℝ
  zMuLayer : List ℝ → List ℝ
  zSigma : List ℝ
  estimator : List ℝ → ℝ
  gpGradient : List (List ℝ) → List (List ℝ)

/-- `DiscriminatorNetwork`: configuration flags, parameter state, and the
manually updated coefficient `beta` (a buffer excluded from gradient
updates, lines 120-122). -/
structure DiscriminatorNetwork where
  useVail : Bool
  useActions : Bool
  weights : Weights
  beta : ℝ

/-- `GAILSettings`: the immutable configuration record. -/
structure GAILSettings where
  demoPath : String
  learningRate : ℝ
  encodingSize : ℕ
  useActions : Bool
  useVail : Bool

/-- `BehaviorSpec`: observation shapes (opaque here; only threaded through to
the demonstration loader and the encoder construction). -/
structure BehaviorSpec where
  observationShapes : List (List ℕ)

namespace DiscriminatorNetwork

/-- Class constant `gradient_penalty_weight = 10.0` (line 69). -/
def gradientPenaltyWeight : ℝ := 10.0

/-- Class constant `z_size = 128` (line 70). -/
def zSize : ℕ := 128

/-- Class constant `alpha = 0.0005` (line 71). -/
def alpha : ℝ := 0.0005

/-- Class constant `mutual_information = 0.5` (line 72). -/
def mutualInformation : ℝ := 0.5

/-- Class constant `EPSILON = 1e-7` (line 73). -/
def EPSILON : ℝ := 1e-7

/-- Class constant `initial_beta = 0.0` (line 74). -/
def initialBeta : ℝ := 0.0

end DiscriminatorNetwork

/-- Python implicit bool-to-float coercion (`self.z_sigma * use_vail_noise`,
line 170). -/
def boolToReal (b : Bool) : ℝ := if b then 1 else 0

/-- Pointwise ternary zip, truncating at the shortest list; used for
`torch.cat(..., dim=1)` over three equally long row lists. -/
def zipWith3 {α β γ δ : Type} (f : α → β → γ → δ) : List α → List β → List γ → List δ
  | a :: as, b :: bs, c :: cs => f a b c :: zipWith3 f as bs cs
  | _, _, _ => []

/-- Elementwise interpolation `eps * x + (1 - eps) * y` with an independent
coefficient per element (`torch.rand(x.shape)` draws one uniform sample per
tensor element). -/
def interpolate : (ℕ → ℝ) → List ℝ → List ℝ → List ℝ
  | eps, x :: xs, y :: ys =>
      (eps 0 * x + (1 - eps 0) * y) :: interpolate (fun j => eps (j + 1)) xs ys
  | _, _, _ => []

/-- Row-wise interpolation of two matrices, one coefficient per element. -/
def interpolateRows : (ℕ → ℕ → ℝ) → List (List ℝ) → List (List ℝ) → List (List ℝ)
  | eps, x :: xs, y :: ys =>
      interpolate (eps 0) x y :: interpolateRows (fun i => eps (i + 1)) xs ys
  | _, _, _ => []

/-- Reparametrised `torch.normal(mu, sigma)` on one row: `mu + sigma * g`
elementwise, where `g` is the standard-normal draw of the shared random
generator. -/
def addNoise : List ℝ → List ℝ → (ℕ → ℝ) → List ℝ
  | m :: ms, s :: ss, g => (m + s * g 0) :: addNoise ms ss (fun j => g (j + 1))
  | _, _, _ => []

/-- Reparametrised `torch.normal(mu, sigma)` on a matrix of row means with a
broadcast standard-deviation vector. -/
def sampleRows : (ℕ → ℕ → ℝ) → List (List ℝ) → List ℝ → List (List ℝ)
  | g, m :: ms, sigma => addNoise m sigma (g 0) :: sampleRows (fun i => g (i + 1)) ms sigma
  | _, [], _ => []

/-- `torch.mean` of a vector. -/
def mean (l : List ℝ) : ℝ := l.sum / l.length

namespace DiscriminatorNetwork

/-- `DiscriminatorNetwork.__init__` (lines 76-126): flags are copied from the
settings, `z_sigma` is initialized to a vector of ones of length `z_size`
(lines 111-113), `beta` to `initial_beta` (lines 120-122); the layer weights
come from the external random initializers. -/
def init (settings : GAILSettings) (w : Weights) : DiscriminatorNetwork :=
  { useVail := settings.useVail
    useActions := settings.useActions
    weights := { w with zSigma := List.replicate zSize 1 }
    beta := initialBeta }

end DiscriminatorNetwork

/-- The encoder input of `compute_estimate` (lines 161-165): the state
encoding, concatenated — when `use_actions` is configured — with the
flattened actions and the `done` column. -/
def encoderInputOf (net : DiscriminatorNetwork) (mb : Batch) : List (List ℝ) :=
  let enc := mb.obs.map net.weights.stateEncoder
  if net.useActions then
    zipWith3 (fun h a d => h ++ net.weights.actionFlattener a ++ [d]) enc mb.actions mb.done
  else enc

/-- `compute_estimate` (lines 151-172): encoder input → two-layer encoder →
(when VAIL) latent projection and `torch.normal(z_mu, z_sigma * use_vail_noise)`
→ sigmoid estimator.  Returns the per-experience estimates and, when VAIL is
enabled, the latent mean `z_mu`. -/
def computeEstimate (net : DiscriminatorNetwork) (mb : Batch) (useVailNoise : Bool)
    (g : ℕ → ℕ → ℝ) : List ℝ × Option (List (List ℝ)) :=
  let hidden := (encoderInputOf net mb).map net.weights.encoder
  if net.useVail then
    let zMu := hidden.map net.weights.zMuLayer
    let hidden2 := sampleRows g zMu (net.weights.zSigma.map (fun s => s * boolToReal useVailNoise))
    (hidden2.map net.weights.estimator, some zMu)
  else
    (hidden.map net.weights.estimator, none)

/-- The VAIL KL loss (lines 193-202): per element `1 + log(sigma^2)
- 0.5·expert_mu^2 - 0.5·policy_mu^2 - sigma^2` with `z_sigma` broadcast over
rows, summed over the latent dimension, negated, and averaged over the
batch. -/
def klLossOf (sigma : List ℝ) (expertMu policyMu : List (List ℝ)) : ℝ :=
  mean (List.zipWith
    (fun em pm =>
      -(zipWith3
          (fun s e p => 1 + Real.log (s ^ 2) - 0.5 * e ^ 2 - 0.5 * p ^ 2 - s ^ 2)
          sigma em pm).sum)
    expertMu policyMu)

/-- The non-gradient `beta` update of lines 204-208:
`beta ← torch.max(beta + alpha * (kl_loss - mutual_information), 0)`. -/
def betaStep (b k : ℝ) : ℝ :=
  max (b + DiscriminatorNetwork.alpha * (k - DiscriminatorNetwork.mutualInformation)) 0

/-- The interpolated encoder input of `compute_gradient_magnitude`
(lines 223-242).  Note: line 229 of the source computes `expert_action` from
`policy_batch`, so the action group interpolates the policy actions with
themselves; this definition mirrors the source. -/
def gpEncoderInput (net : DiscriminatorNetwork) (pb eb : Batch)
    (obsEps actEps : ℕ → ℕ → ℝ) (doneEps : ℕ → ℝ) : List (List ℝ) :=
  let policyObs := pb.obs.map net.weights.stateEncoder
  let expertObs := eb.obs.map net.weights.stateEncoder
  let base := interpolateRows obsEps policyObs expertObs
  if net.useActions then
    let policyAction := pb.actions.map net.weights.actionFlattener
    let expertAction := pb.actions.map net.weights.actionFlattener
    let actMix := interpolateRows actEps policyAction expertAction
    let doneMix := interpolate doneEps pb.done eb.done
    zipWith3 (fun o a d => o ++ a ++ [d]) base actMix doneMix
  else base

/-- The interpolated encoder input as the specification describes it: the
action group interpolates the policy-batch actions with the expert-batch
actions (`interpolated = eps * policy_x + (1 - eps) * expert_x` for each
concatenated feature group).  Differs from `gpEncoderInput` only in taking
`expertAction` from the expert batch. -/
def gpEncoderInputSpec (net : DiscriminatorNetwork) (pb eb : Batch)
    (obsEps actEps : ℕ → ℕ → ℝ) (doneEps : ℕ → ℝ) : List (List ℝ) :=
  let policyObs := pb.obs.map net.weights.stateEncoder
  let expertObs := eb.obs.map net.weights.stateEncoder
  let base := interpolateRows obsEps policyObs expertObs
  if net.useActions then
    let policyAction := pb.actions.map net.weights.actionFlattener
    let expertAction := eb.actions.map net.weights.actionFlattener
    let actMix := interpolateRows actEps policyAction expertAction
    let doneMix := interpolate doneEps pb.done eb.done
    zipWith3 (fun o a d => o ++ a ++ [d]) base actMix doneMix
  else base

/-- `compute_gradient_magnitude` (lines 216-254): interpolated input →
network → external autodiff gradient (`gpGradient`), then the epsilon-guarded
per-row norm `sqrt(sum(grad^2, dim=1) + EPSILON)` and the mean squared
deviation of that norm from 1. -/
def computeGradientMagnitude (net : DiscriminatorNetwork) (pb eb : Batch)
    (obsEps actEps : ℕ → ℕ → ℝ) (doneEps : ℕ → ℝ) : ℝ :=
  let encoderInput := gpEncoderInput net pb eb obsEps actEps doneEps
  let gradient := net.weights.gpGradient encoderInput
  let safeNorm := gradient.map
    (fun row => Real.sqrt ((row.map (fun x => x ^ 2)).sum + DiscriminatorNetwork.EPSILON))
  mean (safeNorm.map (fun n => (n - 1) ^ 2))

/-- The tuple returned by `compute_loss` (line 214) together with the
post-call network state (`beta` is updated in place by lines 204-208). -/
structure LossResult where
  loss : ℝ
  policyMeanEstimate : ℝ
  expertMeanEstimate : ℝ
  kl : Option ℝ
  net : DiscriminatorNetwork

/-- `compute_loss` (lines 174-214): noisy estimates for both batches, the
adversarial binary-cross-entropy term, the optional VAIL KL term with the
in-place `beta` update, and the gradient penalty added when the (constant)
penalty weight is positive. -/
def computeLoss (net : DiscriminatorNetwork) (policyBatch expertBatch : Batch)
    (gPolicy gExpert obsEps actEps : ℕ → ℕ → ℝ) (doneEps : ℕ → ℝ) : LossResult :=
  let policyPair := computeEstimate net policyBatch true gPolicy
  let expertPair := computeEstimate net expertBatch true gExpert
  let loss0 := -(mean (List.zipWith
      (fun e p =>
        Real.log (e * (1 - DiscriminatorNetwork.EPSILON))
          + Real.log (1 - p * (1 - DiscriminatorNetwork.EPSILON)))
      expertPair.1 policyPair.1))
  let klOpt : Option ℝ :=
    if net.useVail then
      some (klLossOf net.weights.zSigma (expertPair.2.getD []) (policyPair.2.getD []))
    else none
  let loss1 :=
    match klOpt with
    | some k => loss0 + net.beta * (k - DiscriminatorNetwork.mutualInformation)
    | none => loss0
  let newBeta :=
    match klOpt with
    | some k => betaStep net.beta k
    | none => net.beta
  let loss2 :=
    if 0 < DiscriminatorNetwork.gradientPenaltyWeight then
      loss1 + DiscriminatorNetwork.gradientPenaltyWeight
        * computeGradientMagnitude net policyBatch expertBatch obsEps actEps doneEps
    else loss1
  { loss := loss2
    policyMeanEstimate := mean policyPair.1
    expertMeanEstimate := mean expertPair.1
    kl := klOpt
    net := { net with beta := newBeta } }

/-- The per-estimate reward transform of `evaluate` (lines 34-43):
`-log(1 - estimate * (1 - EPSILON))`. -/
def gailReward (e : ℝ) : ℝ :=
  -Real.log (1 - e * (1 - DiscriminatorNetwork.EPSILON))

/-- The reward array of `GAILRewardProvider.evaluate` (lines 29-43): estimates
with `use_vail_noise=False`, transformed elementwise by the negative-log
reward. -/
def evaluateRewards (net : DiscriminatorNetwork) (mb : Batch) (g : ℕ → ℕ → ℝ) : List ℝ :=
  ((computeEstimate net mb false g).1).map
    (fun e => -Real.log (1 - e * (1 - DiscriminatorNetwork.EPSILON)))

/-- `GAILRewardProvider`: the ignore-done flag, the discriminator, the
preloaded demonstration buffer and the optimizer state.  The buffer and
optimizer representations are abstract (`Buf`, `Opt`). -/
structure GAILRewardProvider (Buf Opt : Type) where
  ignoreDone : Bool
  discriminatorNetwork : DiscriminatorNetwork
  demoBuffer : Buf
  optimizer : Opt

namespace GAILRewardProvider

/-- `GAILRewardProvider.__init__` (lines 19-27): sets `_ignore_done = True`,
builds the discriminator, loads the demonstration buffer via the external
loader called with sequence length `1` (lines 23-25, keeping the second
component of the returned pair), and creates the Adam optimizer from the
configured learning rate. -/
def init {Buf Opt : Type} (specs : BehaviorSpec) (settings : GAILSettings)
    (demoToBuffer : String → ℕ → BehaviorSpec → BehaviorSpec × Buf)
    (mkAdam : ℝ → Opt) (w : Weights) : GAILRewardProvider Buf Opt :=
  { ignoreDone := true
    discriminatorNetwork := DiscriminatorNetwork.init settings w
    demoBuffer := (demoToBuffer settings.demoPath 1 specs).2
    optimizer := mkAdam settings.learningRate }

/-- `GAILRewardProvider.evaluate` (lines 29-43): runs under `torch.no_grad`,
computes estimates with `use_vail_noise=False`, returns the reward array; it
performs no assignment, so the provider state threads through unchanged. -/
def evaluate {Buf Opt : Type} (p : GAILRewardProvider Buf Opt) (mb : Batch)
    (g : ℕ → ℕ → ℝ) : List ℝ × GAILRewardProvider Buf Opt :=
  (evaluateRewards p.discriminatorNetwork mb g, p)

/-- The body of `update` (lines 49-65) after the expert batch has been
sampled: `compute_loss`, one optimizer step on the trainable weights
(`optimStep` is the external Adam step: `zero_grad`; `backward`; `step`),
then the statistics mapping, with the two VAIL entries appended exactly when
`use_vail` is set. -/
def updateOnExpert {Buf Opt : Type} (p : GAILRewardProvider Buf Opt)
    (mb expertBatch : Batch) (optimStep : Opt → Weights → Opt × Weights)
    (gPolicy gExpert obsEps actEps : ℕ → ℕ → ℝ) (doneEps : ℕ → ℝ) :
    List (String × ℝ) × GAILRewardProvider Buf Opt :=
  let r := computeLoss p.discriminatorNetwork mb expertBatch gPolicy gExpert obsEps actEps doneEps
  let stepped := optimStep p.optimizer r.net.weights
  let newNet : DiscriminatorNetwork := { r.net with weights := stepped.2 }
  let stats :=
    [("Losses/GAIL Discriminator Loss", r.loss),
     ("Policy/GAIL Policy Estimate", r.policyMeanEstimate),
     ("Policy/GAIL Expert Estimate", r.expertMeanEstimate)]
    ++ (if newNet.useVail then
          [("Policy/GAIL Beta", newNet.beta), ("Losses/GAIL KL Loss", r.kl.getD 0)]
        else [])
  (stats, { p with discriminatorNetwork := newNet, optimizer := stepped.1 })

/-- `GAILRewardProvider.update` (lines 45-65): samples the expert batch from
the demonstration buffer with `sample_mini_batch(num_experiences, 1)`
(lines 46-48) and continues with `updateOnExpert`. -/
def update {Buf Opt : Type} (p : GAILRewardProvider Buf Opt) (mb : Batch)
    (sampleMiniBatch : Buf → ℕ → ℕ → Batch) (optimStep : Opt → Weights → Opt × Weights)
    (gPolicy gExpert obsEps actEps : ℕ → ℕ → ℝ) (doneEps : ℕ → ℝ) :
    List (String × ℝ) × GAILRewardProvider Buf Opt :=
  updateOnExpert p mb (sampleMiniBatch p.demoBuffer mb.numExperiences 1)
    optimStep gPolicy gExpert obsEps actEps doneEps

end GAILRewardProvider

/-- Concrete weights for witness instances: identity collaborators. -/
def w0 : Weights :=
  { stateEncoder := fun x => x
    actionFlattener := fun x => x
    encoder := fun x => x
    zMuLayer := fun x => x
    zSigma := []
    estimator := fun _ => 0
    gpGradient := fun _ => [] }

/-- Concrete discriminator with actions enabled and VAIL disabled. -/
def net0 : DiscriminatorNetwork :=
  { useVail := false, useActions := true, weights := w0, beta := 0 }

/-- Concrete discriminator with VAIL enabled. -/
def net1 : DiscriminatorNetwork :=
  { useVail := true, useActions := false, weights := w0, beta := 0 }

/-- Concrete one-experience policy batch (all zeros). -/
def pb0 : Batch := { obs := [[0]], actions := [[0]], done := [0] }

/-- Concrete one-experience expert batch (all ones). -/
def eb0 : Batch := { obs := [[1]], actions := [[1]], done := [1] }

/-- A deterministic all-zero two-index noise source. -/
def zeroEps2 : ℕ → ℕ → ℝ := fun _ _ => 0

/-- A deterministic all-zero one-index noise source. -/
def zeroEps1 : ℕ → ℝ := fun _ => 0

theorem computeLoss_net_useVail (net : DiscriminatorNetwork) (pb eb : Batch)
    (gP gE oE aE : ℕ → ℕ → ℝ) (dE : ℕ → ℝ) :
    (computeLoss net pb eb gP gE oE aE dE).net.useVail = net.useVail := by
  cases h : net.useVail <;> simp [computeLoss, h]

theorem addNoise_allZero (mu σ : List ℝ) (g g' : ℕ → ℝ) (hσ : ∀ s ∈ σ, s = 0) :
    addNoise mu σ g = addNoise mu σ g' := by
  induction mu generalizing σ g g' with
  | nil => simp [addNoise]
  | cons m ms ih =>
    cases σ with
    | nil => simp [addNoise]
    | cons s ss =>
      have hs : s = 0 := hσ s (by simp)
      have ht : ∀ t ∈ ss, t = 0 := fun t ht => hσ t (by simp [ht])
      simp [addNoise, hs]
      exact ih ss _ _ ht

theorem sampleRows_allZero (g g' : ℕ → ℕ → ℝ) (rows : List (List ℝ)) (σ : List ℝ)
    (hσ : ∀ s ∈ σ, s = 0) : sampleRows g rows σ = sampleRows g' rows σ := by
  induction rows generalizing g g' with
  | nil => simp [sampleRows]
  | cons r rs ih =>
    simp [sampleRows]
    exact ⟨addNoise_allZero r σ _ _ hσ, ih _ _⟩

theorem zero_of_mem_scaled (σ : List ℝ) :
    ∀ s ∈ σ.map (fun s => s * boolToReal false), s = 0 := by
  intro s hs
  rcases List.mem_map.1 hs with ⟨a, _, rfl⟩
  simp [boolToReal]

/-- C5: `compute_loss` returns a present KL fourth component exactly when
`use_vail` is configured, and an absent one (`none`) otherwise. -/
theorem compute_loss_kl_presence :
    ∀ (net : DiscriminatorNetwork) (pb eb : Batch)
      (gP gE oE aE : ℕ → ℕ → ℝ) (dE : ℕ → ℝ),
      ((computeLoss net pb eb gP gE oE aE dE).kl).isSome = net.useVail := by
  intro net pb eb gP gE oE aE dE
  cases h : net.useVail <;> simp [computeLoss, h]

/-- C2: with VAIL enabled, `compute_loss` sets `beta` to
`max(0, beta + 0.0005 * (kl_loss - 0.5))` (the update is a direct state
assignment outside the differentiated loss), and iterating this clamped step
from any non-negative initial `beta` over any sequence of KL values keeps
`beta` non-negative. -/
theorem compute_loss_beta_clamp :
    (∀ (net : DiscriminatorNetwork) (pb eb : Batch)
       (gP gE oE aE : ℕ → ℕ → ℝ) (dE : ℕ → ℝ), net.useVail = true →
       (computeLoss net pb eb gP gE oE aE dE).net.beta
         = max 0 (net.beta + DiscriminatorNetwork.alpha *
             (klLossOf net.weights.zSigma
                ((computeEstimate net eb true gE).2.getD [])
                ((computeEstimate net pb true gP).2.getD [])
              - DiscriminatorNetwork.mutualInformation)))
    ∧ (∀ (b : ℝ) (kls : List ℝ), 0 ≤ b → 0 ≤ List.foldl betaStep b kls) := by
  constructor
  · intro net pb eb gP gE oE aE dE h
    simp [computeLoss, h, betaStep, max_comm]
  · intro b kls hb
    induction kls generalizing b with
    | nil => exact hb
    | cons k ks ih => exact ih _ (le_max_right _ 0)

/-- Witness for C2 at a concrete VAIL-enabled network and a concrete KL
sequence. -/
theorem compute_loss_beta_clamp_witness :
    net1.useVail = true ∧ (0 : ℝ) ≤ 0 ∧
    (computeLoss net1 pb0 eb0 zeroEps2 zeroEps2 zeroEps2 zeroEps2 zeroEps1).net.beta
      = max 0 (net1.beta + DiscriminatorNetwork.alpha *
          (klLossOf net1.weights.zSigma
             ((computeEstimate net1 eb0 true zeroEps2).2.getD [])
             ((computeEstimate net1 pb0 true zeroEps2).2.getD [])
           - DiscriminatorNetwork.mutualInformation)) ∧
    0 ≤ List.foldl betaStep 0 [(1 : ℝ), -5] :=
  ⟨rfl, le_refl 0,
   compute_loss_beta_clamp.1 net1 pb0 eb0 zeroEps2 zeroEps2 zeroEps2 zeroEps2 zeroEps1 rfl,
   compute_loss_beta_clamp.2 0 [1, -5] (le_refl 0)⟩

/-- C3: `evaluate` maps each noise-free estimate through
`reward = -log(1 - estimate * (1 - EPSILON))`; on `(0,1)` this reward is
non-negative (hence finite, being a real number) and strictly monotonically
increasing in the estimate. -/
theorem evaluate_reward_monotone :
    (∀ (net : DiscriminatorNetwork) (mb : Batch) (g : ℕ → ℕ → ℝ),
       evaluateRewards net mb g = ((computeEstimate net mb false g).1).map gailReward)
    ∧ (∀ e : ℝ, 0 < e → e < 1 → 0 ≤ gailReward e)
    ∧ (∀ e₁ e₂ : ℝ, 0 < e₁ → e₁ < e₂ → e₂ < 1 → gailReward e₁ < gailReward e₂) := by
  have hc0 : (0 : ℝ) < 1 - DiscriminatorNetwork.EPSILON := by
    norm_num [DiscriminatorNetwork.EPSILON]
  have hc1 : 1 - DiscriminatorNetwork.EPSILON ≤ 1 := by
    norm_num [DiscriminatorNetwork.EPSILON]
  refine ⟨fun net mb g => rfl, fun e he0 he1 => ?_, fun e₁ e₂ h0 h12 h21 => ?_⟩
  · have h1 : 0 ≤ 1 - e * (1 - DiscriminatorNetwork.EPSILON) := by nlinarith
    have h2 : 1 - e * (1 - DiscriminatorNetwork.EPSILON) ≤ 1 := by nlinarith
    exact neg_nonneg.2 (Real.log_nonpos h1 h2)
  · have hy2 : 0 < 1 - e₂ * (1 - DiscriminatorNetwork.EPSILON) := by nlinarith
    have hlt : 1 - e₂ * (1 - DiscriminatorNetwork.EPSILON)
        < 1 - e₁ * (1 - DiscriminatorNetwork.EPSILON) := by nlinarith
    exact neg_lt_neg (Real.log_lt_log hy2 hlt)

/-- Witness for C3 at the concrete estimates 1/4 and 1/2. -/
theorem evaluate_reward_monotone_witness :
    ((0 : ℝ) < 1 / 4) ∧ ((1 : ℝ) / 4 < 1 / 2) ∧ ((1 : ℝ) / 2 < 1) ∧
    0 ≤ gailReward (1 / 4) ∧ gailReward (1 / 4) < gailReward (1 / 2) :=
  ⟨by norm_num, by norm_num, by norm_num,
   evaluate_reward_monotone.2.1 (1 / 4) (by norm_num) (by norm_num),
   evaluate_reward_monotone.2.2 (1 / 4) (1 / 2) (by norm_num) (by norm_num) (by norm_num)⟩

/-- C4: the loss returned by `compute_loss` decomposes as the adversarial
term — the negative mean of `log(expert_estimate * (1 - EPSILON))
+ log(1 - policy_estimate * (1 - EPSILON))`, with both estimate streams
computed with VAIL noise enabled (`use_vail_noise = true`) — plus the VAIL
term when configured, plus the weighted gradient penalty. -/
theorem compute_loss_adversarial :
    ∀ (net : DiscriminatorNetwork) (pb eb : Batch)
      (gP gE oE aE : ℕ → ℕ → ℝ) (dE : ℕ → ℝ),
      (computeLoss net pb eb gP gE oE aE dE).loss =
        -(mean (List.zipWith
            (fun e p => Real.log (e * (1 - DiscriminatorNetwork.EPSILON))
                + Real.log (1 - p * (1 - DiscriminatorNetwork.EPSILON)))
            (computeEstimate net eb true gE).1 (computeEstimate net pb true gP).1))
        + (if net.useVail then
             net.beta * (klLossOf net.weights.zSigma
                 ((computeEstimate net eb true gE).2.getD [])
                 ((computeEstimate net pb true gP).2.getD [])
               - DiscriminatorNetwork.mutualInformation)
           else 0)
        + DiscriminatorNetwork.gradientPenaltyWeight
          * computeGradientMagnitude net pb eb oE aE dE := by
  intro net pb eb gP gE oE aE dE
  have hw : (0 : ℝ) < DiscriminatorNetwork.gradientPenaltyWeight := by
    norm_num [DiscriminatorNetwork.gradientPenaltyWeight]
  cases h : net.useVail <;> simp [computeLoss, h, hw]

/-- C6: the statistics mapping returned by `update` carries exactly the three
GAIL keys, extended by exactly the two VAIL keys when `use_vail` is set. -/
theorem update_stats_keys :
    ∀ {Buf Opt : Type} (p : GAILRewardProvider Buf Opt) (mb : Batch)
      (sampler : Buf → ℕ → ℕ → Batch) (optimStep : Opt → Weights → Opt × Weights)
      (gP gE oE aE : ℕ → ℕ → ℝ) (dE : ℕ → ℝ),
      ((GAILRewardProvider.update p mb sampler optimStep gP gE oE aE dE).1).map Prod.fst
        = ["Losses/GAIL Discriminator Loss", "Policy/GAIL Policy Estimate",
           "Policy/GAIL Expert Estimate"]
          ++ (if p.discriminatorNetwork.useVail then
                ["Policy/GAIL Beta", "Losses/GAIL KL Loss"] else []) := by
  intro Buf Opt p mb sampler optimStep gP gE oE aE dE
  cases h : p.discriminatorNetwork.useVail <;>
    simp [GAILRewardProvider.update, GAILRewardProvider.updateOnExpert,
      computeLoss_net_useVail, h]

/-- C7: with VAIL noise disabled the degenerate `Normal(z_mu, z_sigma * 0)`
sample is exactly the latent mean, so `compute_estimate` and the reward array
of `evaluate` do not depend on the state of the random generator. -/
theorem evaluate_noise_independence :
    (∀ (mu σ : List ℝ) (g : ℕ → ℝ), σ.length = mu.length →
       addNoise mu (σ.map (fun s => s * boolToReal false)) g = mu)
    ∧ (∀ (net : DiscriminatorNetwork) (mb : Batch) (g₁ g₂ : ℕ → ℕ → ℝ),
         computeEstimate net mb false g₁ = computeEstimate net mb false g₂
         ∧ evaluateRewards net mb g₁ = evaluateRewards net mb g₂) := by
  constructor
  · intro mu σ g h
    induction mu generalizing σ g with
    | nil => simp [addNoise]
    | cons m ms ih =>
      cases σ with
      | nil => simp at h
      | cons s ss =>
        have htail := ih ss (fun j => g (j + 1)) (by simpa using h)
        simp only [List.map_cons, addNoise]
        rw [htail]
        norm_num [boolToReal]
  · intro net mb g₁ g₂
    have hest : computeEstimate net mb false g₁ = computeEstimate net mb false g₂ := by
      cases h : net.useVail
      · simp [computeEstimate, h]
      · have hz := sampleRows_allZero g₁ g₂
          (List.map (net.weights.zMuLayer ∘ net.weights.encoder) (encoderInputOf net mb))
          (net.weights.zSigma.map (fun s => s * boolToReal false))
          (zero_of_mem_scaled net.weights.zSigma)
        simp [computeEstimate, h, hz]
    exact ⟨hest, by simp [evaluateRewards, hest]⟩

/-- Witness for C7 at concrete latent means, scales and noise draws. -/
theorem evaluate_noise_independence_witness :
    ([(3 : ℝ), 4].length = [(1 : ℝ), 2].length) ∧
    addNoise [(1 : ℝ), 2] ([(3 : ℝ), 4].map (fun s => s * boolToReal false))
      (fun _ => 5) = [1, 2] ∧
    computeEstimate net1 pb0 false zeroEps2 = computeEstimate net1 pb0 false (fun _ _ => 7) :=
  ⟨rfl,
   evaluate_noise_independence.1 [1, 2] [3, 4] (fun _ => 5) rfl,
   (evaluate_noise_independence.2 net1 pb0 zeroEps2 (fun _ _ => 7)).1⟩

/-- C8: `evaluate` is a pure read of the provider state: it returns the
reward array and threads the provider (discriminator parameters, `beta`,
demonstration buffer, optimizer state) through unchanged. -/
theorem evaluate_frame_pure :
    ∀ {Buf Opt : Type} (p : GAILRewardProvider Buf Opt) (mb : Batch) (g : ℕ → ℕ → ℝ),
      (GAILRewardProvider.evaluate p mb g).2 = p
      ∧ (GAILRewardProvider.evaluate p mb g).1
          = evaluateRewards p.discriminatorNetwork mb g := by
  intro Buf Opt p mb g
  exact ⟨rfl, rfl⟩

/-- C9: construction always sets the ignore-done flag to true, independent of
the behavior spec and the settings. -/
theorem ignore_done_hardcoded :
    ∀ {Buf Opt : Type} (specs : BehaviorSpec) (settings : GAILSettings)
      (demoToBuffer : String → ℕ → BehaviorSpec → BehaviorSpec × Buf)
      (mkAdam : ℝ → Opt) (w : Weights),
      (GAILRewardProvider.init specs settings demoToBuffer mkAdam w).ignoreDone = true := by
  intro Buf Opt specs settings demoToBuffer mkAdam w
  rfl

/-- C10: construction calls the demonstration loader with the hardcoded
sequence length 1, and `update` samples every expert batch with the same
constant 1 as sequence length. -/
theorem demo_sequence_length_one :
    (∀ {Buf Opt : Type} (specs : BehaviorSpec) (settings : GAILSettings)
       (demoToBuffer : String → ℕ → BehaviorSpec → BehaviorSpec × Buf)
       (mkAdam : ℝ → Opt) (w : Weights),
       (GAILRewardProvider.init specs settings demoToBuffer mkAdam w).demoBuffer
         = (demoToBuffer settings.demoPath 1 specs).2)
    ∧ (∀ {Buf Opt : Type} (p : GAILRewardProvider Buf Opt) (mb : Batch)
         (sampleMiniBatch : Buf → ℕ → ℕ → Batch)
         (optimStep : Opt → Weights → Opt × Weights)
         (gP gE oE aE : ℕ → ℕ → ℝ) (dE : ℕ → ℝ),
         GAILRewardProvider.update p mb sampleMiniBatch optimStep gP gE oE aE dE
           = GAILRewardProvider.updateOnExpert p mb
               (sampleMiniBatch p.demoBuffer mb.numExperiences 1)
               optimStep gP gE oE aE dE) := by
  constructor
  · intro Buf Opt specs settings demoToBuffer mkAdam w
    rfl
  · intro Buf Opt p mb sampleMiniBatch optimStep gP gE oE aE dE
    rfl

/-- C1: at the concrete input where the policy batch is all zeros, the expert
batch is all ones and every interpolation coefficient is 0, the interpolated
encoder input built by `compute_gradient_magnitude` keeps the POLICY action
(middle entry 0) where the specified mixture demands the expert action
(middle entry 1): line 229 of the source reads the expert actions from
`policy_batch`. -/
theorem gp_input_action_mixup :
    gpEncoderInput net0 pb0 eb0 zeroEps2 zeroEps2 zeroEps1 = [[1, 0, 1]]
    ∧ gpEncoderInputSpec net0 pb0 eb0 zeroEps2 zeroEps2 zeroEps1 = [[1, 1, 1]]
    ∧ gpEncoderInput net0 pb0 eb0 zeroEps2 zeroEps2 zeroEps1
        ≠ gpEncoderInputSpec net0 pb0 eb0 zeroEps2 zeroEps2 zeroEps1 := by
  have h1 : gpEncoderInput net0 pb0 eb0 zeroEps2 zeroEps2 zeroEps1 = [[1, 0, 1]] := by
    norm_num [gpEncoderInput, net0, w0, pb0, eb0, zeroEps2, zeroEps1,
      interpolateRows, interpolate, zipWith3]
  have h2 : gpEncoderInputSpec net0 pb0 eb0 zeroEps2 zeroEps2 zeroEps1 = [[1, 1, 1]] := by
    norm_num [gpEncoderInputSpec, net0, w0, pb0, eb0, zeroEps2, zeroEps1,
      interpolateRows, interpolate, zipWith3]
  refine ⟨h1, h2, ?_⟩
  rw [h1, h2]
  norm_num
